import Mathlib

set_option maxHeartbeats 1000000

/- Shallow embedding of the diagnosis-normalization logic of the
   Mjifarms serverless handlers (src/index.js, src/api/index.js,
   src/functions/index.js, and the revision in src/unnamed/part_001,
   second document).  JSON optionality is modeled with `Option`;
   JS numbers are modeled as exact rationals, with `none` standing for
   `undefined`/`NaN` wherever an absent probability flows into
   arithmetic (`undefined * 100` is `NaN` in JS); a JS value pushed
   into `recommendations` that is not a string is modeled by the
   non-string constructors of `RecEntry`. -/

/-- The values the vendor field `is_healthy.binary` is compared against
across the revisions: the booleans `true`/`false` (src/api/index.js and
part_001 use `=== true` / `=== false`) and the strings `'healthy'` /
`'unhealthy'` (src/index.js and src/functions/index.js). -/
inductive BinVal
  | bTrue
  | bFalse
  | bHealthy
  | bUnhealthy
  deriving DecidableEq, Repr

/-- JS truthiness of a `binary` value: the boolean `false` is falsy,
the boolean `true` and the non-empty strings are truthy. -/
def BinVal.isTruthy : BinVal → Bool
  | .bFalse => false
  | _ => true

/-- An entry of the `recommendations` array.  The handlers mostly push
strings, but `push(details.description.value)` can push `undefined`
(src/api/index.js line 141) and `t.value || t` can push a whole object
(lines 145 and part_001 line 319). -/
inductive RecEntry
  | str (s : String)
  | undef
  | obj
  deriving DecidableEq, Repr

/-- An element of a `details.treatment` array: either a plain string or
an object with an optional `value` field. -/
inductive TElem
  | telStr (s : String)
  | telObj (value : Option String)
  deriving DecidableEq, Repr

/-- The `details.treatment` value: an array, an object with an optional
`value` field, or a plain string. -/
inductive TreatmentVal
  | trArr (items : List TElem)
  | trObj (value : Option String)
  | trStr (s : String)
  deriving DecidableEq, Repr

/-- The `details.description` object with its optional `value` field. -/
structure DescriptionVal where
  value : Option String
  deriving DecidableEq, Repr

/-- The `details` object of a disease suggestion. -/
structure DetailsVal where
  description : Option DescriptionVal
  treatment : Option TreatmentVal
  deriving DecidableEq, Repr

/-- One element of a `similar_images` array; the handlers only read its
`url` field, guarded by `if (img.url)`. -/
structure SimilarImage where
  url : Option String
  deriving DecidableEq, Repr

/-- One element of `result.disease.suggestions` (Plant.id v3 shape). -/
structure DiseaseSuggestion where
  name : Option String
  probability : Option ℚ
  details : Option DetailsVal
  similar_images : Option (List SimilarImage)
  deriving DecidableEq, Repr

/-- The `result.disease` object. -/
structure DiseaseVal where
  suggestions : Option (List DiseaseSuggestion)
  deriving DecidableEq, Repr

/-- The health-classification flag `is_healthy`. -/
structure IsHealthyVal where
  binary : Option BinVal
  probability : Option ℚ
  deriving DecidableEq, Repr

/-- The Plant.id v3 `result` object read by src/api/index.js and the
part_001 revision. -/
structure ResultVal where
  is_healthy : Option IsHealthyVal
  disease : Option DiseaseVal
  deriving DecidableEq, Repr

/-- A nested suggestion of a `health_assessment.diseases` entry; the
handlers map it to its `name`. -/
structure NestedSuggestion where
  name : Option String
  deriving DecidableEq, Repr

/-- One element of `health_assessment.diseases` (v2-era shape read by
src/index.js and src/functions/index.js). -/
structure HaDisease where
  name : Option String
  probability : Option ℚ
  suggestions : Option (List NestedSuggestion)
  deriving DecidableEq, Repr

/-- The `health_assessment` object. -/
structure HealthAssessmentVal where
  diseases : Option (List HaDisease)
  deriving DecidableEq, Repr

/-- One element of the top-level `suggestions` array (general plant
identification). -/
structure PlantSuggestion where
  plant_name : Option String
  probability : Option ℚ
  similar_images : Option (List SimilarImage)
  deriving DecidableEq, Repr

/-- The raw vendor response: one object of which the different
revisions probe different optional substructures. -/
structure RawResponse where
  result : Option ResultVal
  is_healthy : Option IsHealthyVal
  health_assessment : Option HealthAssessmentVal
  suggestions : Option (List PlantSuggestion)
  deriving DecidableEq, Repr

/-- JS string interpolation of a possibly-undefined value: a template
literal renders `undefined` as the string "undefined". -/
def jsStr : Option String → String
  | some s => s
  | none => "undefined"

/-- JS `p || d` on a numeric field: `undefined` and `0` are falsy, so a
present zero falls back to the default exactly like a missing value. -/
def jsOrQ : Option ℚ → ℚ → ℚ
  | some v, d => if v = 0 then d else v
  | none, d => d

/-- JS `p * 100` on a possibly-undefined probability: `undefined * 100`
is `NaN`, modeled as `none`. -/
def mul100 : Option ℚ → Option ℚ
  | some v => some (v * 100)
  | none => none

/-- Models `forEach(img => { if (img.url) push(img.url) })`: keep the urls
that are present and truthy (non-empty). -/
def imageUrls (imgs : List SimilarImage) : List String :=
  imgs.filterMap fun img =>
    match img.url with
    | some u => if u = "" then none else some u
    | none => none

/-- Urls contributed by one disease suggestion, guarded by
`if (suggestion.similar_images && Array.isArray(...))`. -/
def suggImages (s : DiseaseSuggestion) : List String :=
  match s.similar_images with
  | some imgs => imageUrls imgs
  | none => []

/-- Urls contributed by one plant-identification suggestion. -/
def plantSuggImages (s : PlantSuggestion) : List String :=
  match s.similar_images with
  | some imgs => imageUrls imgs
  | none => []

/-- The effective `result.disease.suggestions` list: empty when
`disease` or `suggestions` is absent
(`result.disease && result.disease.suggestions && length > 0`). -/
def apiDiseaseSuggs (r : ResultVal) : List DiseaseSuggestion :=
  match r.disease with
  | some d =>
    match d.suggestions with
    | some l => l
    | none => []
  | none => []

/-- The effective top-level `suggestions` list. -/
def rawPlantSuggs (raw : RawResponse) : List PlantSuggestion :=
  match raw.suggestions with
  | some l => l
  | none => []

/-- The guard `result && result.is_healthy && typeof
result.is_healthy.binary !== 'undefined'` of src/api/index.js line 125:
when it holds, return the destructured pieces. -/
def apiHealthCond (raw : RawResponse) : Option (ResultVal × IsHealthyVal × BinVal) :=
  match raw.result with
  | some r =>
    match r.is_healthy with
    | some ih =>
      match ih.binary with
      | some b => some (r, ih, b)
      | none => none
    | none => none
  | none => none

/-- The record produced by src/api/index.js (lines 113-121). -/
structure ApiDiagnosis where
  date : ℕ
  source : String
  confidenceLevel : Option ℚ
  pestOrDisease : Option String
  recommendations : List RecEntry
  relatedDiseaseImages : List String
  rawApiResponse : RawResponse
  deriving DecidableEq, Repr

/-- The initial record of src/api/index.js lines 113-121. -/
def apiBase (now : ℕ) (raw : RawResponse) : ApiDiagnosis :=
  { date := now
    source := "AI_Plant.id"
    confidenceLevel := some 0
    pestOrDisease := some "Unknown Issue"
    recommendations := []
    relatedDiseaseImages := []
    rawApiResponse := raw }

/-- Models `push(topSuggestion.details.description.value)` of
src/api/index.js line 141: pushes the value, which may be undefined. -/
def descValueRec (desc : DescriptionVal) : RecEntry :=
  match desc.value with
  | some v => RecEntry.str v
  | none => RecEntry.undef

/-- Models `t.value || t` mapped over a treatment array
(src/api/index.js line 145, part_001 line 319). -/
def telRec : TElem → RecEntry
  | .telStr s => RecEntry.str s
  | .telObj (some v) => if v = "" then RecEntry.obj else RecEntry.str v
  | .telObj none => RecEntry.obj

/-- Treatment handling of src/api/index.js lines 143-149: an array is
mapped through `t.value || t`; otherwise `treatment.value` is pushed
when truthy; a plain string has no `.value` and contributes nothing. -/
def apiTreatmentRecs : Option TreatmentVal → List RecEntry
  | none => []
  | some (.trArr items) => items.map telRec
  | some (.trObj (some v)) => if v = "" then [] else [RecEntry.str v]
  | some (.trObj none) => []
  | some (.trStr _) => []

/-- The recommendation entries extracted from the top disease
suggestion's `details` by src/api/index.js lines 139-150. -/
def apiDetailRecs (top : DiseaseSuggestion) : List RecEntry :=
  match top.details with
  | none => []
  | some det =>
    (match det.description with
     | some desc => [descValueRec desc]
     | none => []) ++ apiTreatmentRecs det.treatment

/-- The full recommendations produced by the disease branch of
src/api/index.js for a given top suggestion, including the
`Possible issue:` fallback of lines 152-155. -/
def apiTopRecs (top : DiseaseSuggestion) : List RecEntry :=
  let recs := apiDetailRecs top
  if recs = [] then [RecEntry.str ("Possible issue: " ++ jsStr top.name ++ ".")] else recs

/-- The disease branch of src/api/index.js lines 131-166: the top
suggestion determines label, confidence (probability * 100) and
recommendations; every suggestion contributes its similar-image urls. -/
def apiDiseaseBranch (d : ApiDiagnosis) (top : DiseaseSuggestion)
    (rest : List DiseaseSuggestion) : ApiDiagnosis :=
  let recs0 := d.recommendations ++ apiDetailRecs top
  let recs1 :=
    if recs0 = [] then [RecEntry.str ("Possible issue: " ++ jsStr top.name ++ ".")] else recs0
  { d with
    pestOrDisease := top.name
    confidenceLevel := mul100 top.probability
    recommendations := recs1
    relatedDiseaseImages := d.relatedDiseaseImages ++ ((top :: rest).map suggImages).flatten }

/-- The general plant-identification fallback of src/api/index.js lines
174-189, guarded by `apiResponse.suggestions && length > 0 &&
pestOrDisease === "Unknown Issue"`. -/
def apiPlantBranch (raw : RawResponse) (d : ApiDiagnosis) : ApiDiagnosis :=
  match raw.suggestions with
  | some (top :: _) =>
    if d.pestOrDisease = some "Unknown Issue" then
      { d with
        pestOrDisease := some ("Identified as: " ++ jsStr top.plant_name)
        confidenceLevel := mul100 top.probability
        recommendations := d.recommendations ++
          [RecEntry.str ("No specific health issue detected, but the plant is identified as " ++
            jsStr top.plant_name ++ ".")]
        relatedDiseaseImages := d.relatedDiseaseImages ++ plantSuggImages top }
    else d
  | _ => d

/-- The healthy side of the flag check, src/api/index.js lines 126-129. -/
def apiHealthyBranch (ih : IsHealthyVal) (d : ApiDiagnosis) : ApiDiagnosis :=
  { d with
    pestOrDisease := some "Healthy"
    confidenceLevel := mul100 ih.probability
    recommendations := d.recommendations ++ [RecEntry.str "Your plant appears healthy!"] }

/-- The unhealthy side of the flag check, src/api/index.js lines
130-172: disease suggestions when available, otherwise the
pending-analysis record. -/
def apiUnhealthyBranch (r : ResultVal) (ih : IsHealthyVal) (d : ApiDiagnosis) : ApiDiagnosis :=
  match apiDiseaseSuggs r with
  | top :: rest => apiDiseaseBranch d top rest
  | [] =>
    { d with
      pestOrDisease := some "Unhealthy - Specific issue pending analysis."
      confidenceLevel := mul100 ih.probability
      recommendations := d.recommendations ++
        [RecEntry.str "Could not identify a specific issue despite appearing unhealthy. Please try a clearer photo, different angle, or consult an expert."] }

/-- The main branch structure of src/api/index.js lines 125-189: the
health flag is examined first; disease suggestions are consulted only
on its unhealthy side; otherwise the plant-identification fallback. -/
def apiStep (raw : RawResponse) (d : ApiDiagnosis) : ApiDiagnosis :=
  match apiHealthCond raw with
  | some (r, ih, b) =>
    if b = BinVal.bTrue then apiHealthyBranch ih d
    else apiUnhealthyBranch r ih d
  | none => apiPlantBranch raw d

/-- The final fallback of src/api/index.js lines 192-194, gated on the
label still being "Unknown Issue" with empty recommendations. -/
def apiFinal (d : ApiDiagnosis) : ApiDiagnosis :=
  if d.pestOrDisease = some "Unknown Issue" ∧ d.recommendations = [] then
    { d with recommendations :=
        [RecEntry.str "Could not identify specific issue. Please try a clearer photo, different angle, or consult an expert."] }
  else d

/-- The normalization step of src/api/index.js (lines 113-194): build
the initial record, run the branch chain, apply the final fallback.
`now` stands for the server-resolved timestamp sentinel. -/
def apiNormalize (now : ℕ) (raw : RawResponse) : ApiDiagnosis :=
  apiFinal (apiStep raw (apiBase now raw))

/-- The guard `apiResponse.is_healthy && apiResponse.is_healthy.binary`
of src/index.js line 137 (and src/functions/index.js line 50): the
flag object must be present and its `binary` value truthy — the
boolean `false` is falsy and skips the whole block. -/
def truthyHealthCond (raw : RawResponse) : Option (IsHealthyVal × BinVal) :=
  match raw.is_healthy with
  | some ih =>
    match ih.binary with
    | some b => if b.isTruthy then some (ih, b) else none
    | none => none
  | none => none

/-- The effective `health_assessment.diseases` list, empty when either
level is absent (`health_assessment && .diseases && length > 0`). -/
def indexDiseasesOf (raw : RawResponse) : List HaDisease :=
  match raw.health_assessment with
  | some ha =>
    match ha.diseases with
    | some l => l
    | none => []
  | none => []

/-- Models `topDisease.suggestions.map((s) => s.name)`: an absent nested name
maps to the JS value `undefined`. -/
def nestedRec (n : NestedSuggestion) : RecEntry :=
  match n.name with
  | some v => RecEntry.str v
  | none => RecEntry.undef

/-- The record produced by src/index.js (lines 127-135); this revision
has no related-images field. -/
structure IndexDiagnosis where
  date : ℕ
  source : String
  confidenceLevel : Option ℚ
  pestOrDisease : Option String
  recommendations : List RecEntry
  rawApiResponse : RawResponse
  deriving DecidableEq, Repr

/-- The initial record of src/index.js lines 127-135. -/
def indexBase (now : ℕ) (raw : RawResponse) : IndexDiagnosis :=
  { date := now
    source := "AI_Plant.id"
    confidenceLevel := some 0
    pestOrDisease := some "Unknown Issue"
    recommendations := []
    rawApiResponse := raw }

/-- The health-flag block of src/index.js lines 137-146: `binary` is
compared against the strings; a healthy flag coalesces an absent or
zero probability to 1.0 via `||`, the unhealthy side to 0 and pushes
no recommendation. -/
def indexHealthStep (raw : RawResponse) (d : IndexDiagnosis) : IndexDiagnosis :=
  match truthyHealthCond raw with
  | some (ih, b) =>
    if b = BinVal.bHealthy then
      { d with
        pestOrDisease := some "Healthy"
        confidenceLevel := some (jsOrQ ih.probability 1)
        recommendations := d.recommendations ++ [RecEntry.str "Your plant appears healthy!"] }
    else if b = BinVal.bUnhealthy then
      { d with
        pestOrDisease := some "Unhealthy - Specific issue pending analysis."
        confidenceLevel := some (jsOrQ ih.probability 0) }
    else d
  | none => d

/-- The plant-identification fallback of src/index.js lines 155-160. -/
def indexPlantBranch (raw : RawResponse) (d : IndexDiagnosis) : IndexDiagnosis :=
  match raw.suggestions with
  | some (top :: _) =>
    if d.pestOrDisease = some "Unknown Issue" then
      { d with
        pestOrDisease := some ("Identified as: " ++ jsStr top.plant_name)
        confidenceLevel := top.probability
        recommendations := d.recommendations ++
          [RecEntry.str ("No specific health issue detected, but the plant is identified as " ++
            jsStr top.plant_name ++ ".")] }
    else d
  | _ => d

/-- The disease block of src/index.js lines 148-160: the top
`health_assessment.diseases` entry overrides label and confidence (the
raw probability, possibly undefined), and its nested suggestion names
replace the recommendations when present. -/
def indexDiseaseStep (raw : RawResponse) (d : IndexDiagnosis) : IndexDiagnosis :=
  match indexDiseasesOf raw with
  | top :: _ =>
    { d with
      pestOrDisease := top.name
      confidenceLevel := top.probability
      recommendations :=
        match top.suggestions with
        | some (s :: ss) => (s :: ss).map nestedRec
        | _ => d.recommendations }
  | [] => indexPlantBranch raw d

/-- The final fallback of src/index.js lines 162-164, gated on the
label still being "Unknown Issue" with empty recommendations. -/
def indexFinal (d : IndexDiagnosis) : IndexDiagnosis :=
  if d.pestOrDisease = some "Unknown Issue" ∧ d.recommendations = [] then
    { d with recommendations :=
        [RecEntry.str "Could not identify specific issue. Please try a clearer photo, different angle, or consult an expert."] }
  else d

/-- The normalization step of src/index.js (lines 127-164). -/
def indexNormalize (now : ℕ) (raw : RawResponse) : IndexDiagnosis :=
  indexFinal (indexDiseaseStep raw (indexHealthStep raw (indexBase now raw)))

/-- The record produced by src/functions/index.js (lines 40-48). -/
structure FnDiagnosis where
  date : ℕ
  originalImageURL : String
  source : String
  confidenceLevel : Option ℚ
  pestOrDisease : Option String
  recommendations : List RecEntry
  rawApiResponse : RawResponse
  deriving DecidableEq, Repr

/-- The initial record of src/functions/index.js lines 40-48. -/
def fnBase (now : ℕ) (imageUrl : String) (raw : RawResponse) : FnDiagnosis :=
  { date := now
    originalImageURL := imageUrl
    source := "AI_Plant.id"
    confidenceLevel := some 0
    pestOrDisease := some "Unknown Issue"
    recommendations := []
    rawApiResponse := raw }

/-- The health-flag block of src/functions/index.js lines 50-59: like
src/index.js, except the healthy side assigns the raw probability with
no `|| 1.0` coalescing. -/
def fnHealthStep (raw : RawResponse) (d : FnDiagnosis) : FnDiagnosis :=
  match truthyHealthCond raw with
  | some (ih, b) =>
    if b = BinVal.bHealthy then
      { d with
        pestOrDisease := some "Healthy"
        confidenceLevel := ih.probability
        recommendations := d.recommendations ++ [RecEntry.str "Plant appears healthy!"] }
    else if b = BinVal.bUnhealthy then
      { d with
        pestOrDisease := some "Unhealthy - Specific issue pending"
        confidenceLevel := some (jsOrQ ih.probability 0) }
    else d
  | none => d

/-- The final fallback of src/functions/index.js lines 81-83; unlike
the other revisions it is gated on empty recommendations alone. -/
def fnFinal (d : FnDiagnosis) : FnDiagnosis :=
  if d.recommendations = [] then
    { d with recommendations := [RecEntry.str "Could not identify specific issue."] }
  else d

/-- The normalization step of src/functions/index.js (lines 40-83),
which — unlike every other revision — reads
`apiResponse.health_assessment.diseases` (line 62) and
`apiResponse.suggestions.length` (line 70) without presence guards:
an absent field there is a thrown TypeError, modeled as `none`. -/
def fnNormalize (now : ℕ) (imageUrl : String) (raw : RawResponse) : Option FnDiagnosis :=
  let d1 := fnHealthStep raw (fnBase now imageUrl raw)
  match raw.health_assessment with
  | none => none
  | some ha =>
    match ha.diseases with
    | none => none
    | some diseases =>
      match diseases with
      | top :: _ =>
        some (fnFinal
          { d1 with
            pestOrDisease := top.name
            confidenceLevel := top.probability
            recommendations :=
              match top.suggestions with
              | some (s :: ss) => (s :: ss).map nestedRec
              | _ => d1.recommendations })
      | [] =>
        match raw.suggestions with
        | none => none
        | some suggs =>
          match suggs with
          | top :: _ =>
            if d1.pestOrDisease = some "Unknown Issue" then
              some (fnFinal
                { d1 with
                  pestOrDisease := some ("Identified as: \n        " ++ jsStr top.plant_name)
                  confidenceLevel := top.probability
                  recommendations := d1.recommendations ++
                    [RecEntry.str ("Plant identified as " ++ jsStr top.plant_name ++ ".")] })
            else some (fnFinal d1)
          | [] => some (fnFinal d1)

/-- The record produced by the revision in src/unnamed/part_001
(second document, lines 286-300), which also carries request context. -/
structure Part1Diagnosis where
  date : ℕ
  source : String
  confidenceLevel : Option ℚ
  pestOrDisease : Option String
  recommendations : List RecEntry
  relatedDiseaseImages : List String
  rawApiResponse : RawResponse
  userId : String
  cropLogId : String
  plantId : String
  reviewStatus : String
  latitude : Option ℚ
  longitude : Option ℚ
  deriving DecidableEq, Repr

/-- The initial record of part_001 lines 286-300. -/
def part1Base (now : ℕ) (userId cropLogId plantId : String)
    (latitude longitude : Option ℚ) (raw : RawResponse) : Part1Diagnosis :=
  { date := now
    source := "AI_Plant.id"
    confidenceLevel := some 0
    pestOrDisease := some "Unknown Issue"
    recommendations := []
    relatedDiseaseImages := []
    rawApiResponse := raw
    userId := userId
    cropLogId := cropLogId
    plantId := plantId
    reviewStatus := "none"
    latitude := latitude
    longitude := longitude }

/-- Treatment handling of part_001 lines 317-325: like
src/api/index.js but with an extra `typeof treatment === 'string'`
branch that pushes a plain string. -/
def part1TreatmentRecs : Option TreatmentVal → List RecEntry
  | none => []
  | some (.trArr items) => items.map telRec
  | some (.trObj (some v)) => if v = "" then [] else [RecEntry.str v]
  | some (.trObj none) => []
  | some (.trStr s) => [RecEntry.str s]

/-- Models `push(description.value || description)` of part_001 line 315:
a falsy value falls back to pushing the description object itself. -/
def part1DescRec (desc : DescriptionVal) : RecEntry :=
  match desc.value with
  | some v => if v = "" then RecEntry.obj else RecEntry.str v
  | none => RecEntry.obj

/-- The recommendation entries extracted from the top disease
suggestion's `details` by part_001 lines 312-326. -/
def part1DetailRecs (top : DiseaseSuggestion) : List RecEntry :=
  match top.details with
  | none => []
  | some det =>
    (match det.description with
     | some desc => [part1DescRec desc]
     | none => []) ++ part1TreatmentRecs det.treatment

/-- The full recommendations produced by the disease branch of part_001
for a given top suggestion, including the `Possible issue:` fallback of
lines 328-331. -/
def part1TopRecs (top : DiseaseSuggestion) : List RecEntry :=
  let recs := part1DetailRecs top
  if recs = [] then [RecEntry.str ("Possible issue: " ++ jsStr top.name ++ ".")] else recs

/-- The disease branch of part_001 lines 306-342: the top suggestion
sets label, confidence (probability * 100) and recommendations; every
suggestion contributes its similar-image urls. -/
def part1DiseaseBranch (d : Part1Diagnosis) (top : DiseaseSuggestion)
    (rest : List DiseaseSuggestion) : Part1Diagnosis :=
  let recs0 := d.recommendations ++ part1DetailRecs top
  let recs1 :=
    if recs0 = [] then [RecEntry.str ("Possible issue: " ++ jsStr top.name ++ ".")] else recs0
  { d with
    pestOrDisease := top.name
    confidenceLevel := mul100 top.probability
    recommendations := recs1
    relatedDiseaseImages := d.relatedDiseaseImages ++ ((top :: rest).map suggImages).flatten }

/-- The plant-identification fallback of part_001 lines 354-368 (no
label check in this revision). -/
def part1PlantBranch (raw : RawResponse) (d : Part1Diagnosis) : Part1Diagnosis :=
  match raw.suggestions with
  | some (top :: _) =>
    { d with
      pestOrDisease := some ("Identified as: " ++ jsStr top.plant_name)
      confidenceLevel := mul100 top.probability
      recommendations := d.recommendations ++
        [RecEntry.str ("No specific health issue detected, but the plant is identified as " ++
          jsStr top.plant_name ++ ".")]
      relatedDiseaseImages := d.relatedDiseaseImages ++ plantSuggImages top }
  | _ => d

/-- The branch chain of part_001 lines 302-369: inside `if (result)`,
disease suggestions are tried FIRST, then the health flag (booleans),
then general identification. -/
def part1Step (raw : RawResponse) (d : Part1Diagnosis) : Part1Diagnosis :=
  match raw.result with
  | none => d
  | some r =>
    match apiDiseaseSuggs r with
    | top :: rest => part1DiseaseBranch d top rest
    | [] =>
      match r.is_healthy with
      | some ih =>
        match ih.binary with
        | some b =>
          if b = BinVal.bTrue then
            { d with
              pestOrDisease := some "Healthy"
              confidenceLevel := mul100 ih.probability
              recommendations := d.recommendations ++
                [RecEntry.str "Your plant appears healthy!"] }
          else if b = BinVal.bFalse then
            { d with
              pestOrDisease := some "Unhealthy - No specific issue identified."
              confidenceLevel := mul100 ih.probability
              recommendations := d.recommendations ++
                [RecEntry.str "The plant appears unhealthy, but a specific issue could not be identified. Please try a clearer photo or consult an expert."] }
          else d
        | none => part1PlantBranch raw d
      | none => part1PlantBranch raw d

/-- The final fallback of part_001 lines 372-374 (same gate as
src/api/index.js). -/
def part1Final (d : Part1Diagnosis) : Part1Diagnosis :=
  if d.pestOrDisease = some "Unknown Issue" ∧ d.recommendations = [] then
    { d with recommendations :=
        [RecEntry.str "Could not identify specific issue. Please try a clearer photo, different angle, or consult an expert."] }
  else d

/-- The normalization step of the revision in src/unnamed/part_001
(second document, lines 286-374). -/
def part1Normalize (now : ℕ) (userId cropLogId plantId : String)
    (latitude longitude : Option ℚ) (raw : RawResponse) : Part1Diagnosis :=
  part1Final (part1Step raw (part1Base now userId cropLogId plantId latitude longitude raw))

/-- A possibly-absent vendor probability lies in [0,1] when present. -/
def probOk : Option ℚ → Bool
  | some q => decide (0 ≤ q ∧ q ≤ 1)
  | none => true

/-- Every probability that src/api/index.js can read out of a raw
response lies in [0,1]. -/
def probsInUnit (raw : RawResponse) : Bool :=
  (match raw.result with
   | some r =>
     (match r.is_healthy with
      | some ih => probOk ih.probability
      | none => true)
     && (apiDiseaseSuggs r).all (fun s => probOk s.probability)
   | none => true)
  && (rawPlantSuggs raw).all (fun s => probOk s.probability)

/-- The effective disease-suggestion list reachable from the raw
response through `result`. -/
def apiDiseaseSuggsOf (raw : RawResponse) : List DiseaseSuggestion :=
  match raw.result with
  | some r => apiDiseaseSuggs r
  | none => []

/-- A raw response carrying only an unhealthy string health flag with
no probability (src/index.js shape). -/
def c1raw : RawResponse :=
  { result := none
    is_healthy := some { binary := some BinVal.bUnhealthy, probability := none }
    health_assessment := none
    suggestions := none }

/-- A raw response whose v3 result carries only a healthy boolean flag
with probability 0.92. -/
def c2raw : RawResponse :=
  { result := some
      { is_healthy := some { binary := some BinVal.bTrue, probability := some (92 / 100) }
        disease := none }
    is_healthy := none
    health_assessment := none
    suggestions := none }

/-- A disease suggestion named Rust with probability 0.9. -/
def c3sugg : DiseaseSuggestion :=
  { name := some "Rust", probability := some (9 / 10), details := none, similar_images := none }

/-- A raw response with a healthy boolean flag AND a non-empty disease
suggestion list in the same v3 result. -/
def c3raw : RawResponse :=
  { result := some
      { is_healthy := some { binary := some BinVal.bTrue, probability := some (1 / 2) }
        disease := some { suggestions := some [c3sugg] } }
    is_healthy := none
    health_assessment := none
    suggestions := none }

/-- A raw response with every optional field absent (the JSON object
with none of the probed substructures). -/
def c4raw : RawResponse :=
  { result := none, is_healthy := none, health_assessment := none, suggestions := none }

/-- A disease suggestion named Mildew carrying the shared url. -/
def c5sugg1 : DiseaseSuggestion :=
  { name := some "Mildew", probability := some (3 / 5), details := none,
    similar_images := some [{ url := some "http://u" }] }

/-- A disease suggestion named Blight carrying the same url. -/
def c5sugg2 : DiseaseSuggestion :=
  { name := some "Blight", probability := some (2 / 5), details := none,
    similar_images := some [{ url := some "http://u" }] }

/-- The unhealthy boolean health flag used by the C5 inputs. -/
def c5ih : IsHealthyVal :=
  { binary := some BinVal.bFalse, probability := some (1 / 2) }

/-- The v3 result with two disease suggestions sharing a url. -/
def c5res : ResultVal :=
  { is_healthy := some c5ih, disease := some { suggestions := some [c5sugg1, c5sugg2] } }

/-- A raw response whose two disease suggestions carry the same
similar-image url. -/
def c5raw : RawResponse :=
  { result := some c5res, is_healthy := none, health_assessment := none, suggestions := none }

/-- The healthy boolean flag with probability 0.92 used by the C6
record. -/
def c6ih : IsHealthyVal :=
  { binary := some BinVal.bTrue, probability := some (92 / 100) }

/-- The v3 result carrying only the healthy flag `c6ih`. -/
def c6res : ResultVal :=
  { is_healthy := some c6ih, disease := none }

/-- A raw response carrying only a healthy boolean flag with
probability 0.92 (same shape as `c2raw`, used for the C6 record). -/
def c6raw : RawResponse :=
  { result := some c6res, is_healthy := none, health_assessment := none, suggestions := none }

/-- The unhealthy boolean flag with no probability field used by the
C7 record. -/
def c7ih : IsHealthyVal :=
  { binary := some BinVal.bFalse, probability := none }

/-- The v3 result carrying only the unhealthy flag `c7ih`. -/
def c7res : ResultVal :=
  { is_healthy := some c7ih, disease := none }

/-- A raw response carrying only an unhealthy boolean flag with no
probability field. -/
def c7raw : RawResponse :=
  { result := some c7res, is_healthy := none, health_assessment := none, suggestions := none }

/-- A raw response with all three signal types absent (witness input
for the no-signal fallback). -/
def c8raw : RawResponse :=
  { result := none, is_healthy := none, health_assessment := none, suggestions := none }

/-- The string health flag healthy with an explicit zero probability
used by the C10 record. -/
def c10ih : IsHealthyVal :=
  { binary := some BinVal.bHealthy, probability := some 0 }

/-- A raw response whose string health flag is healthy with an
explicit zero probability. -/
def c10raw : RawResponse :=
  { result := none, is_healthy := some c10ih, health_assessment := none, suggestions := none }

/-- A raw response with every field absent, whose final label stays
"Unknown Issue" (witness input for the gated fallback). -/
def c1wraw : RawResponse :=
  { result := none, is_healthy := none, health_assessment := none, suggestions := none }

/-- The unhealthy boolean flag used by the C3 witness input. -/
def c3wih : IsHealthyVal :=
  { binary := some BinVal.bFalse, probability := some (1 / 2) }

/-- The v3 result with an unhealthy flag and the Rust suggestion. -/
def c3wres : ResultVal :=
  { is_healthy := some c3wih, disease := some { suggestions := some [c3sugg] } }

/-- A raw response with an unhealthy boolean flag and one disease
suggestion (witness input for the located precedence statement). -/
def c3wraw : RawResponse :=
  { result := some c3wres, is_healthy := none, health_assessment := none, suggestions := none }

theorem apiFinal_pest (d : ApiDiagnosis) : (apiFinal d).pestOrDisease = d.pestOrDisease := by
  unfold apiFinal
  split <;> rfl

theorem apiFinal_conf (d : ApiDiagnosis) : (apiFinal d).confidenceLevel = d.confidenceLevel := by
  unfold apiFinal
  split <;> rfl

theorem apiFinal_images (d : ApiDiagnosis) :
    (apiFinal d).relatedDiseaseImages = d.relatedDiseaseImages := by
  unfold apiFinal
  split <;> rfl

theorem part1Final_pest (d : Part1Diagnosis) : (part1Final d).pestOrDisease = d.pestOrDisease := by
  unfold part1Final
  split <;> rfl

theorem part1Final_conf (d : Part1Diagnosis) :
    (part1Final d).confidenceLevel = d.confidenceLevel := by
  unfold part1Final
  split <;> rfl

theorem part1Final_images (d : Part1Diagnosis) :
    (part1Final d).relatedDiseaseImages = d.relatedDiseaseImages := by
  unfold part1Final
  split <;> rfl

theorem apiHealthCond_some {raw : RawResponse} {r : ResultVal} {ih : IsHealthyVal} {b : BinVal}
    (h1 : raw.result = some r) (h2 : r.is_healthy = some ih) (h3 : ih.binary = some b) :
    apiHealthCond raw = some (r, ih, b) := by
  simp only [apiHealthCond, h1, h2, h3]

theorem apiHealthCond_inv {raw : RawResponse} {r : ResultVal} {ih : IsHealthyVal} {b : BinVal}
    (h : apiHealthCond raw = some (r, ih, b)) :
    raw.result = some r ∧ r.is_healthy = some ih ∧ ih.binary = some b := by
  unfold apiHealthCond at h
  cases h1 : raw.result with
  | none => simp [h1] at h
  | some r0 =>
    cases h2 : r0.is_healthy with
    | none => simp [h1, h2] at h
    | some ih0 =>
      cases h3 : ih0.binary with
      | none => simp [h1, h2, h3] at h
      | some b0 =>
        simp only [h1, h2, h3, Option.some.injEq, Prod.mk.injEq] at h
        obtain ⟨hr, hi, hb⟩ := h
        subst hr; subst hi; subst hb
        exact ⟨rfl, h2, h3⟩

theorem probOk_bounds {p : Option ℚ} (hp : probOk p = true) {c : ℚ}
    (hc : mul100 p = some c) : 0 ≤ c ∧ c ≤ 100 := by
  cases p with
  | none => simp [mul100] at hc
  | some q =>
    simp only [mul100, Option.some.injEq] at hc
    simp only [probOk, decide_eq_true_eq] at hp
    subst hc
    constructor
    · exact mul_nonneg hp.1 (by norm_num)
    · nlinarith [hp.2]

/-- Claim C1 counterexample: on the raw response carrying only an unhealthy
string health flag, src/index.js produces a record whose
recommendations are EMPTY — the unhealthy branch (lines 142-145)
pushes nothing and the final fallback (lines 162-164) is gated on the
label still being "Unknown Issue", which it no longer is. -/
theorem c1_unhealthy_flag_empty_recommendations :
    (indexNormalize 0 c1raw).recommendations = [] ∧
    (indexNormalize 0 c1raw).pestOrDisease =
      some "Unhealthy - Specific issue pending analysis." := by
  decide

/-- Claim C2 counterexample: on a healthy flag with probability 0.92,
src/api/index.js (line 128) multiplies by 100 and stores a
confidenceLevel of 92, which is not in [0,1]. -/
theorem c2_confidence_exceeds_one :
    (apiNormalize 0 c2raw).confidenceLevel = some 92 ∧ ¬((92 : ℚ) ≤ 1) := by
  have h : (apiNormalize 0 c2raw).confidenceLevel = some (92 / 100 * 100) := rfl
  rw [h, Option.some.injEq]
  norm_num

/-- Claim C3 counterexample: with a healthy boolean flag AND a non-empty
disease suggestion list, src/api/index.js labels the record "Healthy",
not with the first disease suggestion's name — the health flag, not
the disease list, has highest precedence there (lines 125-130). -/
theorem c3_healthy_flag_overrides_disease :
    (apiNormalize 0 c3raw).pestOrDisease = some "Healthy" ∧
    (apiNormalize 0 c3raw).pestOrDisease ≠ some "Rust" := by
  decide

/-- Claim C4: evaluating src/functions/index.js at a raw response with no
`health_assessment` field: line 62 dereferences
`apiResponse.health_assessment.diseases` without a presence guard, so
the access throws (modeled as `none`) instead of degrading to the
fallback chain. -/
theorem c4_missing_health_assessment_throws :
    fnNormalize 0 "https://img.example/leaf.png" c4raw = none := by
  rfl

/-- Claim C5 counterexample: the same url under the similar images of two
disease suggestions is pushed twice by src/api/index.js lines 157-166;
the resulting relatedDiseaseImages list holds duplicates. -/
theorem c5_duplicate_url_repeated :
    ¬(apiNormalize 0 c5raw).relatedDiseaseImages.Nodup ∧
    (apiNormalize 0 c5raw).relatedDiseaseImages = ["http://u", "http://u"] := by
  decide

/-- Claim C6 counterexample: on a healthy boolean flag with probability 0.92,
src/api/index.js stores confidenceLevel 92 (probability * 100), not
0.92. -/
theorem c6_confidence_is_92_not_fraction :
    (apiNormalize 0 c6raw).confidenceLevel ≠ some (92 / 100) ∧
    (apiNormalize 0 c6raw).confidenceLevel = some 92 := by
  have h : (apiNormalize 0 c6raw).confidenceLevel = some (92 / 100 * 100) := rfl
  rw [h]
  constructor
  · rw [Ne, Option.some.injEq]
    norm_num
  · rw [Option.some.injEq]
    norm_num

/-- Claim C7 counterexample: on an unhealthy boolean flag with no probability
field, src/api/index.js line 170 computes `undefined * 100`, i.e. NaN
(modeled `none`) — not the claimed default 0. -/
theorem c7_confidence_nan_not_zero :
    (apiNormalize 0 c7raw).confidenceLevel = none ∧
    (apiNormalize 0 c7raw).pestOrDisease =
      some "Unhealthy - Specific issue pending analysis." := by
  decide

theorem indexFinal_pest (d : IndexDiagnosis) : (indexFinal d).pestOrDisease = d.pestOrDisease := by
  unfold indexFinal
  split <;> rfl

theorem indexFinal_conf (d : IndexDiagnosis) :
    (indexFinal d).confidenceLevel = d.confidenceLevel := by
  unfold indexFinal
  split <;> rfl

theorem indexPlantBranch_noop (raw : RawResponse) (d : IndexDiagnosis)
    (h : d.pestOrDisease ≠ some "Unknown Issue") : indexPlantBranch raw d = d := by
  unfold indexPlantBranch
  cases raw.suggestions with
  | none => rfl
  | some l =>
    cases l with
    | nil => rfl
    | cons top rest => simp [h]

theorem apiFinal_noop (d : ApiDiagnosis) (h : d.recommendations ≠ []) : apiFinal d = d := by
  unfold apiFinal
  rw [if_neg (fun hab => h hab.2)]

theorem part1Final_noop (d : Part1Diagnosis) (h : d.recommendations ≠ []) :
    part1Final d = d := by
  unfold part1Final
  rw [if_neg (fun hab => h hab.2)]

/-- Claim C1 (amended): in src/index.js the generic fallback is
appended exactly when the label is still "Unknown Issue" with empty
recommendations, so non-empty recommendations are guaranteed only for
records whose final label is "Unknown Issue"; the unhealthy-flag
branch leaves recommendations empty under a different label. -/
theorem c1_fallback_gated_on_unknown_issue (now : ℕ) (raw : RawResponse)
    (h : (indexNormalize now raw).pestOrDisease = some "Unknown Issue") :
    (indexNormalize now raw).recommendations ≠ [] := by
  unfold indexNormalize at h ⊢
  generalize indexDiseaseStep raw (indexHealthStep raw (indexBase now raw)) = d at h ⊢
  unfold indexFinal at h ⊢
  by_cases hc : d.pestOrDisease = some "Unknown Issue" ∧ d.recommendations = []
  · rw [if_pos hc] at h ⊢
    simp
  · rw [if_neg hc] at h ⊢
    intro hnil
    exact hc ⟨h, hnil⟩

/-- Witness for C1: on the all-absent raw response the final label is
"Unknown Issue" and the recommendations are indeed non-empty. -/
theorem c1_fallback_gated_on_unknown_issue_witness :
    (indexNormalize 0 c1wraw).pestOrDisease = some "Unknown Issue" ∧
    (indexNormalize 0 c1wraw).recommendations ≠ [] :=
  ⟨rfl, c1_fallback_gated_on_unknown_issue 0 c1wraw rfl⟩

/-- Claim C10: in src/index.js (and the identical part_000 revision), a
healthy flag whose probability field is explicitly 0 yields
confidenceLevel 1.0, because `probability || 1.0` treats a present
zero exactly like a missing value. -/
theorem c10_zero_probability_coalesced_to_one (now : ℕ) (raw : RawResponse)
    (ih : IsHealthyVal) (h1 : raw.is_healthy = some ih)
    (h2 : ih.binary = some BinVal.bHealthy) (h3 : ih.probability = some 0)
    (h4 : indexDiseasesOf raw = []) :
    (indexNormalize now raw).confidenceLevel = some 1 ∧
    (indexNormalize now raw).pestOrDisease = some "Healthy" := by
  have hh : indexHealthStep raw (indexBase now raw) =
      { date := now
        source := "AI_Plant.id"
        confidenceLevel := some 1
        pestOrDisease := some "Healthy"
        recommendations := [RecEntry.str "Your plant appears healthy!"]
        rawApiResponse := raw } := by
    unfold indexHealthStep truthyHealthCond indexBase
    simp only [h1, h2, h3, BinVal.isTruthy, if_true, jsOrQ]
    rfl
  unfold indexNormalize indexDiseaseStep
  simp only [h4, hh]
  rw [indexPlantBranch_noop _ _ (by simp)]
  rw [indexFinal_conf, indexFinal_pest]
  exact ⟨rfl, rfl⟩

/-- Witness for C10: the concrete raw response with a healthy string
flag and explicit zero probability. -/
theorem c10_zero_probability_coalesced_to_one_witness :
    (indexNormalize 0 c10raw).confidenceLevel = some 1 ∧
    (indexNormalize 0 c10raw).pestOrDisease = some "Healthy" :=
  c10_zero_probability_coalesced_to_one 0 c10raw c10ih rfl rfl rfl rfl

/-- Claim C8: in src/api/index.js, when the health flag, the disease
suggestions and the plant suggestions are all empty or absent, the
record is exactly the Unknown-Issue record with confidence 0 and the
single generic fallback recommendation. -/
theorem c8_no_signal_fallback_record (now : ℕ) (raw : RawResponse)
    (h1 : apiHealthCond raw = none) (_h2 : apiDiseaseSuggsOf raw = [])
    (h3 : rawPlantSuggs raw = []) :
    apiNormalize now raw =
      { date := now
        source := "AI_Plant.id"
        confidenceLevel := some 0
        pestOrDisease := some "Unknown Issue"
        recommendations := [RecEntry.str "Could not identify specific issue. Please try a clearer photo, different angle, or consult an expert."]
        relatedDiseaseImages := []
        rawApiResponse := raw } := by
  unfold apiNormalize apiStep
  rw [h1]
  have hp : apiPlantBranch raw (apiBase now raw) = apiBase now raw := by
    unfold apiPlantBranch
    cases hs : raw.suggestions with
    | none => rfl
    | some l =>
      cases l with
      | nil => rfl
      | cons top rest =>
        exfalso
        unfold rawPlantSuggs at h3
        rw [hs] at h3
        simp at h3
  rw [hp]
  rfl

/-- Witness for C8: the concrete all-absent raw response. -/
theorem c8_no_signal_fallback_record_witness :
    apiNormalize 0 c8raw =
      { date := 0
        source := "AI_Plant.id"
        confidenceLevel := some 0
        pestOrDisease := some "Unknown Issue"
        recommendations := [RecEntry.str "Could not identify specific issue. Please try a clearer photo, different angle, or consult an expert."]
        relatedDiseaseImages := []
        rawApiResponse := c8raw } :=
  c8_no_signal_fallback_record 0 c8raw rfl rfl rfl

/-- Claim C7 (amended): in src/api/index.js an unhealthy boolean flag
with no probability and no disease suggestions yields the
pending-analysis label and the inconclusive retry recommendation, but
confidenceLevel is NaN (`undefined * 100`, modeled `none`), not 0.
(In src/index.js the same input is skipped entirely: `binary` equal to
the boolean false fails the truthiness guard.) -/
theorem c7_unhealthy_no_probability_output (now : ℕ) (raw : RawResponse)
    (r : ResultVal) (ih : IsHealthyVal)
    (h1 : raw.result = some r) (h2 : r.is_healthy = some ih)
    (h3 : ih.binary = some BinVal.bFalse) (h4 : ih.probability = none)
    (h5 : apiDiseaseSuggs r = []) :
    (apiNormalize now raw).confidenceLevel = none ∧
    (apiNormalize now raw).pestOrDisease =
      some "Unhealthy - Specific issue pending analysis." ∧
    (apiNormalize now raw).recommendations =
      [RecEntry.str "Could not identify a specific issue despite appearing unhealthy. Please try a clearer photo, different angle, or consult an expert."] := by
  have hc := apiHealthCond_some h1 h2 h3
  have hstep : apiStep raw (apiBase now raw) =
      { date := now
        source := "AI_Plant.id"
        confidenceLevel := mul100 ih.probability
        pestOrDisease := some "Unhealthy - Specific issue pending analysis."
        recommendations := [RecEntry.str "Could not identify a specific issue despite appearing unhealthy. Please try a clearer photo, different angle, or consult an expert."]
        relatedDiseaseImages := []
        rawApiResponse := raw } := by
    unfold apiStep apiUnhealthyBranch
    simp only [hc, h5]
    rw [if_neg (by decide : ¬(BinVal.bFalse = BinVal.bTrue))]
    rfl
  unfold apiNormalize
  rw [hstep, apiFinal_noop _ (by simp)]
  refine ⟨?_, rfl, rfl⟩
  rw [h4]
  rfl

/-- Witness for C7: the concrete unhealthy-flag raw response with no
probability field. -/
theorem c7_unhealthy_no_probability_output_witness :
    (apiNormalize 0 c7raw).confidenceLevel = none ∧
    (apiNormalize 0 c7raw).pestOrDisease =
      some "Unhealthy - Specific issue pending analysis." ∧
    (apiNormalize 0 c7raw).recommendations =
      [RecEntry.str "Could not identify a specific issue despite appearing unhealthy. Please try a clearer photo, different angle, or consult an expert."] :=
  c7_unhealthy_no_probability_output 0 c7raw c7res c7ih rfl rfl rfl rfl rfl

/-- Claim C6 (amended): in src/api/index.js a healthy boolean flag with
probability 0.92 yields pestOrDisease "Healthy" and exactly one
recommendation noting apparent health, but confidenceLevel 92 (the
probability multiplied by 100), not 0.92. -/
theorem c6_healthy_branch_output (now : ℕ) (raw : RawResponse)
    (r : ResultVal) (ih : IsHealthyVal)
    (h1 : raw.result = some r) (h2 : r.is_healthy = some ih)
    (h3 : ih.binary = some BinVal.bTrue) (h4 : ih.probability = some (92 / 100)) :
    (apiNormalize now raw).pestOrDisease = some "Healthy" ∧
    (apiNormalize now raw).confidenceLevel = some 92 ∧
    (apiNormalize now raw).recommendations = [RecEntry.str "Your plant appears healthy!"] := by
  have hc := apiHealthCond_some h1 h2 h3
  have hstep : apiStep raw (apiBase now raw) = apiHealthyBranch ih (apiBase now raw) := by
    unfold apiStep
    simp only [hc]
    rw [if_true]
  unfold apiNormalize
  rw [hstep, apiFinal_noop _ (by simp [apiHealthyBranch, apiBase])]
  refine ⟨rfl, ?_, rfl⟩
  show mul100 ih.probability = some 92
  rw [h4]
  unfold mul100
  rw [Option.some.injEq]
  norm_num

/-- Witness for C6: the concrete healthy-flag raw response with
probability 0.92. -/
theorem c6_healthy_branch_output_witness :
    (apiNormalize 0 c6raw).pestOrDisease = some "Healthy" ∧
    (apiNormalize 0 c6raw).confidenceLevel = some 92 ∧
    (apiNormalize 0 c6raw).recommendations = [RecEntry.str "Your plant appears healthy!"] :=
  c6_healthy_branch_output 0 c6raw c6res c6ih rfl rfl rfl rfl

/-- Claim C2 (amended): in src/api/index.js the stored confidenceLevel
is the selected source probability multiplied — never divided — by
100: whenever every probability in the raw response lies in [0,1], any
present confidenceLevel lies in [0,100] (it is NaN, not a number, when
the selected branch's probability is absent). -/
theorem c2_confidence_percentage_bound (now : ℕ) (raw : RawResponse)
    (hp : probsInUnit raw = true) (c : ℚ)
    (hc : (apiNormalize now raw).confidenceLevel = some c) : 0 ≤ c ∧ c ≤ 100 := by
  unfold apiNormalize at hc
  rw [apiFinal_conf] at hc
  unfold apiStep at hc
  unfold probsInUnit at hp
  rw [Bool.and_eq_true] at hp
  obtain ⟨hp1, hp2⟩ := hp
  cases hcond : apiHealthCond raw with
  | none =>
    simp only [hcond] at hc
    unfold apiPlantBranch at hc
    cases hs : raw.suggestions with
    | none =>
      simp only [hs, apiBase, Option.some.injEq] at hc
      subst hc
      norm_num
    | some l =>
      cases l with
      | nil =>
        simp only [hs, apiBase, Option.some.injEq] at hc
        subst hc
        norm_num
      | cons top rest =>
        simp only [hs] at hc
        rw [if_pos (show (apiBase now raw).pestOrDisease = some "Unknown Issue" from rfl)] at hc
        have hall : probOk top.probability = true := by
          unfold rawPlantSuggs at hp2
          simp only [hs, List.all_cons, Bool.and_eq_true] at hp2
          exact hp2.1
        exact probOk_bounds hall hc
  | some trip =>
    obtain ⟨r, ih, b⟩ := trip
    obtain ⟨hres, hih, _⟩ := apiHealthCond_inv hcond
    simp only [hcond] at hc
    simp only [hres] at hp1
    rw [Bool.and_eq_true] at hp1
    obtain ⟨hq1, hq2⟩ := hp1
    simp only [hih] at hq1
    by_cases hb : b = BinVal.bTrue
    · rw [if_pos hb] at hc
      exact probOk_bounds hq1 hc
    · rw [if_neg hb] at hc
      unfold apiUnhealthyBranch at hc
      cases hds : apiDiseaseSuggs r with
      | nil =>
        simp only [hds] at hc
        exact probOk_bounds hq1 hc
      | cons top rest =>
        simp only [hds] at hc
        unfold apiDiseaseBranch at hc
        have hall : probOk top.probability = true := by
          simp only [hds, List.all_cons, Bool.and_eq_true] at hq2
          exact hq2.1
        exact probOk_bounds hall hc

/-- Witness for C2: the healthy-flag raw response with probability
0.92 has all probabilities in [0,1], and its stored confidence 92 is
within [0,100]. -/
theorem c2_confidence_percentage_bound_witness : 0 ≤ (92 : ℚ) ∧ (92 : ℚ) ≤ 100 :=
  c2_confidence_percentage_bound 0 c2raw
    (by simp [probsInUnit, c2raw, apiDiseaseSuggs, rawPlantSuggs, probOk]
        norm_num) 92
    (by rw [show (apiNormalize 0 c2raw).confidenceLevel = some (92 / 100 * 100) from rfl,
          Option.some.injEq]
        norm_num)

/-- Claim C3 (amended): the disease-first precedence holds in the
part_001 revision — whenever `result` is present and the disease
suggestion list non-empty, its first entry alone determines
pestOrDisease, confidenceLevel (probability * 100) and the
recommendations, with the other entries contributing only their
similar-image urls.  In src/api/index.js the same conclusion holds
only when the health flag is also present with a non-true binary
value: there the disease list is consulted exclusively on the
unhealthy side of the flag check. -/
theorem c3_disease_precedence_located :
    (∀ (now : ℕ) (raw : RawResponse) (r : ResultVal) (ih : IsHealthyVal) (b : BinVal)
        (top : DiseaseSuggestion) (rest : List DiseaseSuggestion),
        raw.result = some r → r.is_healthy = some ih → ih.binary = some b →
        b ≠ BinVal.bTrue → apiDiseaseSuggs r = top :: rest →
        (apiNormalize now raw).pestOrDisease = top.name ∧
        (apiNormalize now raw).confidenceLevel = mul100 top.probability ∧
        (apiNormalize now raw).recommendations = apiTopRecs top ∧
        (apiNormalize now raw).relatedDiseaseImages = ((top :: rest).map suggImages).flatten) ∧
    (∀ (now : ℕ) (u cl pl : String) (la lo : Option ℚ) (raw : RawResponse) (r : ResultVal)
        (top : DiseaseSuggestion) (rest : List DiseaseSuggestion),
        raw.result = some r → apiDiseaseSuggs r = top :: rest →
        (part1Normalize now u cl pl la lo raw).pestOrDisease = top.name ∧
        (part1Normalize now u cl pl la lo raw).confidenceLevel = mul100 top.probability ∧
        (part1Normalize now u cl pl la lo raw).recommendations = part1TopRecs top ∧
        (part1Normalize now u cl pl la lo raw).relatedDiseaseImages =
          ((top :: rest).map suggImages).flatten) := by
  constructor
  · intro now raw r ih b top rest h1 h2 h3 hb h5
    have hc := apiHealthCond_some h1 h2 h3
    have hstep : apiStep raw (apiBase now raw) = apiDiseaseBranch (apiBase now raw) top rest := by
      unfold apiStep apiUnhealthyBranch
      simp only [hc, if_neg hb, h5]
    unfold apiNormalize
    rw [hstep]
    have hne : (apiDiseaseBranch (apiBase now raw) top rest).recommendations ≠ [] := by
      show apiTopRecs top ≠ []
      by_cases hdet : apiDetailRecs top = [] <;> simp [apiTopRecs, hdet]
    rw [apiFinal_noop _ hne]
    exact ⟨rfl, rfl, rfl, rfl⟩
  · intro now u cl pl la lo raw r top rest h1 h5
    have hstep : part1Step raw (part1Base now u cl pl la lo raw) =
        part1DiseaseBranch (part1Base now u cl pl la lo raw) top rest := by
      unfold part1Step
      simp only [h1, h5]
    unfold part1Normalize
    rw [hstep]
    have hne :
        (part1DiseaseBranch (part1Base now u cl pl la lo raw) top rest).recommendations ≠ [] := by
      show part1TopRecs top ≠ []
      by_cases hdet : part1DetailRecs top = [] <;> simp [part1TopRecs, hdet]
    rw [part1Final_noop _ hne]
    exact ⟨rfl, rfl, rfl, rfl⟩

/-- Witness for C3: on the unhealthy-flag raw response with the single
Rust suggestion, both revisions label the record with the suggestion
name. -/
theorem c3_disease_precedence_located_witness :
    (apiNormalize 0 c3wraw).pestOrDisease = some "Rust" ∧
    (part1Normalize 0 "u" "c" "p" none none c3wraw).pestOrDisease = some "Rust" :=
  ⟨(c3_disease_precedence_located.1 0 c3wraw c3wres c3wih BinVal.bFalse c3sugg []
      rfl rfl rfl (by decide) rfl).1,
   (c3_disease_precedence_located.2 0 "u" "c" "p" none none c3wraw c3wres c3sugg []
      rfl rfl).1⟩

/-- Claim C5 (amended): in src/api/index.js the relatedDiseaseImages
list is the in-order concatenation of every disease suggestion's
similar-image urls with NO deduplication: each url keeps its full
multiplicity across suggestions. -/
theorem c5_images_concatenated_with_multiplicity (now : ℕ) (raw : RawResponse)
    (r : ResultVal) (ih : IsHealthyVal) (b : BinVal)
    (top : DiseaseSuggestion) (rest : List DiseaseSuggestion)
    (h1 : raw.result = some r) (h2 : r.is_healthy = some ih) (h3 : ih.binary = some b)
    (hb : b ≠ BinVal.bTrue) (h5 : apiDiseaseSuggs r = top :: rest) (u : String) :
    ((apiNormalize now raw).relatedDiseaseImages).count u =
      (((top :: rest).map suggImages).flatten).count u := by
  have hc := apiHealthCond_some h1 h2 h3
  have hstep : apiStep raw (apiBase now raw) = apiDiseaseBranch (apiBase now raw) top rest := by
    unfold apiStep apiUnhealthyBranch
    simp only [hc, if_neg hb, h5]
  unfold apiNormalize
  rw [apiFinal_images, hstep]
  rfl

/-- Witness for C5: the shared url of the two C5 suggestions is
counted twice on both sides. -/
theorem c5_images_concatenated_with_multiplicity_witness :
    ((apiNormalize 0 c5raw).relatedDiseaseImages).count "http://u" =
      ((([c5sugg1, c5sugg2]).map suggImages).flatten).count "http://u" :=
  c5_images_concatenated_with_multiplicity 0 c5raw c5res c5ih BinVal.bFalse
    c5sugg1 [c5sugg2] rfl rfl rfl (by decide) rfl "http://u"

theorem apiHealthyBranch_date (ih : IsHealthyVal) (d : ApiDiagnosis) (t : ℕ) :
    apiHealthyBranch ih { d with date := t } = { apiHealthyBranch ih d with date := t } := by
  cases d
  rfl

theorem apiDiseaseBranch_date (d : ApiDiagnosis) (t : ℕ) (top : DiseaseSuggestion)
    (rest : List DiseaseSuggestion) :
    apiDiseaseBranch { d with date := t } top rest =
      { apiDiseaseBranch d top rest with date := t } := by
  cases d
  rfl

theorem apiUnhealthyBranch_date (r : ResultVal) (ih : IsHealthyVal) (d : ApiDiagnosis)
    (t : ℕ) :
    apiUnhealthyBranch r ih { d with date := t } =
      { apiUnhealthyBranch r ih d with date := t } := by
  unfold apiUnhealthyBranch
  cases apiDiseaseSuggs r with
  | nil => cases d; rfl
  | cons top rest => exact apiDiseaseBranch_date d t top rest

theorem apiPlantBranch_date (raw : RawResponse) (d : ApiDiagnosis) (t : ℕ) :
    apiPlantBranch raw { d with date := t } = { apiPlantBranch raw d with date := t } := by
  unfold apiPlantBranch
  cases raw.suggestions with
  | none => rfl
  | some l =>
    cases l with
    | nil => rfl
    | cons top rest =>
      cases d with
      | mk dt src conf pest recs imgs rawr =>
        by_cases h : pest = some "Unknown Issue" <;> simp [h]

theorem apiStep_date (raw : RawResponse) (d : ApiDiagnosis) (t : ℕ) :
    apiStep raw { d with date := t } = { apiStep raw d with date := t } := by
  unfold apiStep
  cases hcond : apiHealthCond raw with
  | none => exact apiPlantBranch_date raw d t
  | some trip =>
    obtain ⟨r, ih, b⟩ := trip
    show (if b = BinVal.bTrue then apiHealthyBranch ih { d with date := t }
          else apiUnhealthyBranch r ih { d with date := t }) =
      { (if b = BinVal.bTrue then apiHealthyBranch ih d else apiUnhealthyBranch r ih d) with
        date := t }
    by_cases hb : b = BinVal.bTrue
    · rw [if_pos hb, if_pos hb]
      exact apiHealthyBranch_date ih d t
    · rw [if_neg hb, if_neg hb]
      exact apiUnhealthyBranch_date r ih d t

theorem apiFinal_date (d : ApiDiagnosis) (t : ℕ) :
    apiFinal { d with date := t } = { apiFinal d with date := t } := by
  cases d with
  | mk dt src conf pest recs imgs rawr =>
    unfold apiFinal
    by_cases h : pest = some "Unknown Issue" ∧ recs = [] <;> simp [h]

/-- Claim C9: src/api/index.js normalization is a pure function of the
raw response — records produced from the same raw payload agree on
every field except the timestamp, even when the two runs resolve
different timestamps. -/
theorem c9_normalization_deterministic_up_to_date (t₁ t₂ : ℕ) (raw : RawResponse) :
    apiNormalize t₁ raw = { apiNormalize t₂ raw with date := t₁ } := by
  unfold apiNormalize
  have hbase : apiBase t₁ raw = { apiBase t₂ raw with date := t₁ } := rfl
  rw [hbase, apiStep_date, apiFinal_date]
